import Mathlib

/-!
Shallow embedding of `pemutil` (Go): a PEM block-decode dispatcher that loads
crypto primitives into a `Store`, plus the inverse encode path and public-key
derivation.

The armored-block framing (`encoding/pem`) and the concrete ASN.1 parsers
(`crypto/x509`) are external collaborators of this package.  They are modelled
abstractly: an armored input is the sequence of `(label, bytes)` blocks the
external splitter would produce (with a flag recording whether non-PEM trailing
garbage follows, in which case `pem.Decode` returns `nil`), and the x509
parse/marshal functions are fields of an `X509` structure over which all
definitions are parameterized.  Key values themselves are opaque handles
(`Nat`); the dispatcher never inspects them, it only routes them, which is
exactly what the Go code does with its `interface{}` values.

`toyX509` is a small concrete instance used to evaluate the definitions on
closed inputs.
-/

/-- Raw binary data (the base64-decoded payload of a PEM block). -/
abbrev Bytes := List Nat

/-- A Go `interface{}` value as stored in a `Store` or returned by a parser:
either raw bytes, one of the typed crypto primitives (opaque handles), or some
other dynamic value (e.g. an ed25519 key returned by the PKCS#8 parser). -/
inductive Val where
  | bytes (b : Bytes)
  | rsaPriv (k : Nat)
  | ecPriv (k : Nat)
  | rsaPub (k : Nat)
  | ecPub (k : Nat)
  | cert (c : Nat)
  | other (o : Nat)
  deriving DecidableEq, Repr

/-- A PEM block type is a string (Go: `type BlockType string`). -/
abbrev BlockType := String

/-- The "PRIVATE KEY" block type. -/
def PrivateKey : BlockType := "PRIVATE KEY"

/-- The "PUBLIC KEY" block type. -/
def PublicKey : BlockType := "PUBLIC KEY"

/-- The "RSA PRIVATE KEY" block type. -/
def RSAPrivateKey : BlockType := "RSA PRIVATE KEY"

/-- The "EC PRIVATE KEY" block type. -/
def ECPrivateKey : BlockType := "EC PRIVATE KEY"

/-- The "CERTIFICATE" block type. -/
def Certificate : BlockType := "CERTIFICATE"

/-- A Go `map[BlockType]interface{}` modelled as an association list with
unique keys; `storeSet` overwrites in place or appends. -/
abbrev Store := List (BlockType × Val)

/-- Map lookup: `store[k]`. -/
def storeGet (s : Store) (k : BlockType) : Option Val :=
  match s with
  | [] => none
  | (k', v) :: rest => if k' = k then some v else storeGet rest k

/-- Map update: `store[k] = v` (replace the existing binding, else append). -/
def storeSet (s : Store) (k : BlockType) (v : Val) : Store :=
  match s with
  | [] => [(k, v)]
  | (k', v') :: rest =>
    if k' = k then (k, v) :: rest else (k', v') :: storeSet rest k v

/-- One armored block as produced by the external splitter `pem.Decode`:
its label (`pem.Block.Type`) and decoded payload (`pem.Block.Bytes`). -/
abbrev Block := BlockType × Bytes

/-- A buffer of PEM data, seen through the external splitter: the blocks it
yields in order, and whether unparseable non-PEM data remains afterwards
(in which case the final `pem.Decode` call returns `nil` on nonempty input). -/
structure PEMInput where
  blocks : List Block
  trailing : Bool
  deriving DecidableEq, Repr

/-- The external `crypto/x509` parse/marshal collaborators.  Parsers that
return a specific Go key type return an opaque handle; `parsePKCS8` and
`parsePKIX` return `interface{}` in Go and hence a whole `Val` here. -/
structure X509 where
  parsePKCS1PrivateKey : Bytes → Except String Nat
  parsePKCS8PrivateKey : Bytes → Except String Val
  parsePKIXPublicKey : Bytes → Except String Val
  parseECPrivateKey : Bytes → Except String Nat
  parseCertificate : Bytes → Except String Nat
  marshalPKCS1PrivateKey : Nat → Bytes
  marshalECPrivateKey : Nat → Except String Bytes
  marshalPKIXPublicKey : Val → Except String Bytes
  rsaPublic : Nat → Nat
  ecdsaPublic : Nat → Nat

/-- `parsePKCSPrivateKey` (pemutil.go:138): attempt PKCS#1 parsing; on any
failure attempt PKCS#8 parsing and return its result (so on double failure the
PKCS#8 error is returned and the PKCS#1 error is discarded). -/
def parsePKCSPrivateKey (x : X509) (buf : Bytes) : Except String Val :=
  match x.parsePKCS1PrivateKey buf with
  | .ok key => .ok (.rsaPriv key)
  | .error _ => x.parsePKCS8PrivateKey buf

/-- The body of `DecodePEM`'s switch (pemutil.go:162) for one block: returns
the store after this block together with an optional fatal error; on a fatal
error the store is returned unmodified. -/
def dispatchBlock (x : X509) (store : Store) (bt : BlockType) (b : Bytes) :
    Store × Option String :=
  if bt = PrivateKey then
    match parsePKCSPrivateKey x b with
    | .ok key => (storeSet store RSAPrivateKey key, none)
    | .error _ => (storeSet store PrivateKey (.bytes b), none)
  else if bt = PublicKey then
    match x.parsePKIXPublicKey b with
    | .ok key => (storeSet store PublicKey key, none)
    | .error _ => (storeSet store PublicKey (.bytes b), none)
  else if bt = RSAPrivateKey then
    match parsePKCSPrivateKey x b with
    | .ok key => (storeSet store RSAPrivateKey key, none)
    | .error e => (store, some e)
  else if bt = ECPrivateKey then
    match x.parseECPrivateKey b with
    | .ok key => (storeSet store ECPrivateKey (.ecPriv key), none)
    | .error e => (store, some e)
  else if bt = Certificate then
    match x.parseCertificate b with
    | .ok c => (storeSet store Certificate (.cert c), none)
    | .error e => (store, some e)
  else
    (store, some ("DecodePEM: encountered unknown block type " ++ bt))

/-- `DecodePEM`'s loop (pemutil.go:156): consume one block, dispatch it,
repeat; when no block remains, fail iff unparseable data is left over
(`pem.Decode` returned `nil` on nonempty input). -/
def decodeBlocks (x : X509) (g : Bool) : Store → List Block → Store × Option String
  | store, [] =>
    if g then (store, some "DecodePEM: invalid PEM data") else (store, none)
  | store, (bt, b) :: rest =>
    match dispatchBlock x store bt b with
    | (s, none) => decodeBlocks x g s rest
    | (s, some e) => (s, some e)

/-- `DecodePEM` (pemutil.go:152): parse and decode the PEM data in `buf`,
storing resulting primitives into `store`.  The pair returned is the final
state of the (mutated-in-place) store and the error result. -/
def DecodePEM (x : X509) (store : Store) (buf : PEMInput) : Store × Option String :=
  decodeBlocks x buf.trailing store buf.blocks

/-- `EncodePrimitive` (pemutil.go:72): map a primitive to its block type and
serialized bytes (the subsequent `pem.EncodeToMemory` framing is external, so
the result is the armored block's content). -/
def EncodePrimitive (x : X509) (obj : Val) : Except String Block :=
  match obj with
  | .bytes v => .ok (PrivateKey, v)
  | .rsaPriv v => .ok (RSAPrivateKey, x.marshalPKCS1PrivateKey v)
  | .ecPriv v =>
    match x.marshalECPrivateKey v with
    | .ok buf => .ok (ECPrivateKey, buf)
    | .error e => .error e
  | .rsaPub _ =>
    match x.marshalPKIXPublicKey obj with
    | .ok buf => .ok (PublicKey, buf)
    | .error e => .error e
  | .ecPub _ =>
    match x.marshalPKIXPublicKey obj with
    | .ok buf => .ok (PublicKey, buf)
    | .error e => .error e
  | _ => .error "EncodePrimitive: unsupported crypto primitive"

/-- `Store.Bytes` (pemutil.go:115): encode every primitive in the store and
concatenate the armored output (here: the list of framed blocks, in the
store's iteration order; Go's map order is unspecified, the list order is one
admissible order). -/
def Store.Bytes (x : X509) : Store → Except String (List Block)
  | [] => .ok []
  | (_, p) :: rest =>
    match EncodePrimitive x p with
    | .error e => .error e
    | .ok blk =>
      match Store.Bytes x rest with
      | .error e => .error e
      | .ok blks => .ok (blk :: blks)

/-- One item of a `PEM` value (Go `[]interface{}`): a filename string, an
`io.Reader` (opaque handle), raw bytes, or a value of any other dynamic type
(carrying the name `reflect.TypeOf` would print). -/
inductive Source where
  | str (name : String)
  | reader (id : Nat)
  | bytes (buf : PEMInput)
  | unknown (typeName : String)
  deriving DecidableEq, Repr

/-- A set of PEM-encoded data sources (Go `type PEM []interface{}`). -/
abbrev PEM := List Source

/-- The I/O collaborators of `Load`: `ioutil.ReadFile` for filename sources
and `ioutil.ReadAll` for reader sources, each yielding the bytes as seen
through the splitter, or an I/O error. -/
structure Env where
  readFile : String → Except String PEMInput
  readAll : Nat → Except String PEMInput

/-- One iteration of `Load`'s loop (pemutil.go:243): resolve the source to a
buffer (or fail), then `DecodePEM` it into the store. -/
def loadOne (x : X509) (env : Env) (store : Store) : Source → Store × Option String
  | .str name =>
    match env.readFile name with
    | .ok buf => DecodePEM x store buf
    | .error e => (store, some e)
  | .reader r =>
    match env.readAll r with
    | .ok buf => DecodePEM x store buf
    | .error e => (store, some e)
  | .bytes buf => DecodePEM x store buf
  | .unknown t => (store, some ("Load: unrecognized type " ++ t))

/-- `PEM.Load` (pemutil.go:238): process each source in order, stopping at the
first error; the store keeps everything stored before the failure. -/
def PEM.Load (x : X509) (env : Env) (p : PEM) (store : Store) : Store × Option String :=
  match p with
  | [] => (store, none)
  | c :: rest =>
    match loadOne x env store c with
    | (s, none) => PEM.Load x env rest s
    | (s, some e) => (s, some e)

/-- The second half of `GeneratePublicKeys` (pemutil.go:335): if an
`ECPrivateKey` entry is present, type-assert it and store its public key. -/
def genECPublicKey (x : X509) (store : Store) : Store × Option String :=
  match storeGet store ECPrivateKey with
  | some (.ecPriv k) =>
    (storeSet store PublicKey (.ecPub (x.ecdsaPublic k)), none)
  | some _ =>
    (store, some "GeneratePublicKeys: expected ECPrivateKey to be *ecdsa.PrivateKey")
  | none => (store, none)

/-- `GeneratePublicKeys` (pemutil.go:324): derive and store `PublicKey` from a
present `RSAPrivateKey` and then from a present `ECPrivateKey`, failing if a
stored value is not of the asserted private-key type. -/
def GeneratePublicKeys (x : X509) (store : Store) : Store × Option String :=
  match storeGet store RSAPrivateKey with
  | some (.rsaPriv k) =>
    genECPublicKey x (storeSet store PublicKey (.rsaPub (x.rsaPublic k)))
  | some _ =>
    (store, some "GeneratePublicKeys: expected RSAPrivateKey to be *rsa.PrivateKey")
  | none => genECPublicKey x store

/-- A small concrete `X509` instance used to evaluate the dispatcher on closed
inputs: each format is a distinct tag byte followed by the key handle. -/
def toyX509 : X509 where
  parsePKCS1PrivateKey b :=
    match b with
    | [1, n] => .ok n
    | _ => .error "asn1: structure error in PKCS1 data"
  parsePKCS8PrivateKey b :=
    match b with
    | [8, 1, n] => .ok (.rsaPriv n)
    | [8, 2, n] => .ok (.ecPriv n)
    | [8, 3, n] => .ok (.other n)
    | _ => .error "asn1: structure error in PKCS8 data"
  parsePKIXPublicKey b :=
    match b with
    | [6, 1, n] => .ok (.rsaPub n)
    | [6, 2, n] => .ok (.ecPub n)
    | _ => .error "asn1: structure error in PKIX data"
  parseECPrivateKey b :=
    match b with
    | [2, n] => .ok n
    | _ => .error "asn1: structure error in EC data"
  parseCertificate b :=
    match b with
    | [9, n] => .ok n
    | _ => .error "asn1: structure error in certificate data"
  marshalPKCS1PrivateKey k := [1, k]
  marshalECPrivateKey k := .ok [2, k]
  marshalPKIXPublicKey v :=
    match v with
    | .rsaPub n => .ok [6, 1, n]
    | .ecPub n => .ok [6, 2, n]
    | _ => .error "x509: unsupported public key type"
  rsaPublic k := k
  ecdsaPublic k := k

/-! ## Basic lemmas about the store and the dispatcher -/

theorem storeGet_storeSet_same (s : Store) (k : BlockType) (v : Val) :
    storeGet (storeSet s k v) k = some v := by
  induction s with
  | nil => simp [storeSet, storeGet]
  | cons p rest ih =>
    obtain ⟨k', v'⟩ := p
    by_cases h : k' = k
    · simp [storeSet, storeGet, h]
    · simp [storeSet, storeGet, h, ih]

theorem storeGet_storeSet_other (s : Store) (k k' : BlockType) (v : Val)
    (h : k' ≠ k) : storeGet (storeSet s k' v) k = storeGet s k := by
  induction s with
  | nil => simp [storeSet, storeGet, h]
  | cons p rest ih =>
    obtain ⟨a, b⟩ := p
    by_cases ha : a = k'
    · subst ha
      simp [storeSet, storeGet, h]
    · simp [storeSet, storeGet, ha, ih]

theorem storeGet_storeSet_isSome (s : Store) (k k' : BlockType) (v : Val)
    (h : (storeGet s k).isSome) : (storeGet (storeSet s k' v) k).isSome := by
  by_cases hk : k' = k
  · subst hk
    simp [storeGet_storeSet_same]
  · rwa [storeGet_storeSet_other _ _ _ _ hk]

theorem DecodePEM_mk (x : X509) (store : Store) (bs : List Block) (g : Bool) :
    DecodePEM x store ⟨bs, g⟩ = decodeBlocks x g store bs := rfl

theorem decode_cons_ok (x : X509) (g : Bool) (store : Store) (bt : BlockType)
    (b : Bytes) (rest : List Block) (s' : Store)
    (h : dispatchBlock x store bt b = (s', none)) :
    decodeBlocks x g store ((bt, b) :: rest) = decodeBlocks x g s' rest := by
  simp [decodeBlocks, h]

theorem decode_cons_err (x : X509) (g : Bool) (store : Store) (bt : BlockType)
    (b : Bytes) (rest : List Block) (s' : Store) (e : String)
    (h : dispatchBlock x store bt b = (s', some e)) :
    decodeBlocks x g store ((bt, b) :: rest) = (s', some e) := by
  simp [decodeBlocks, h]

theorem decode_nil (x : X509) (store : Store) :
    decodeBlocks x false store [] = (store, none) := rfl

theorem dispatch_private_ok (x : X509) (store : Store) (b : Bytes) (v : Val)
    (h : parsePKCSPrivateKey x b = .ok v) :
    dispatchBlock x store PrivateKey b = (storeSet store RSAPrivateKey v, none) := by
  simp [dispatchBlock, h]

theorem dispatch_private_err (x : X509) (store : Store) (b : Bytes) (e : String)
    (h : parsePKCSPrivateKey x b = .error e) :
    dispatchBlock x store PrivateKey b =
      (storeSet store PrivateKey (.bytes b), none) := by
  simp [dispatchBlock, h]

theorem dispatch_public_ok (x : X509) (store : Store) (b : Bytes) (v : Val)
    (h : x.parsePKIXPublicKey b = .ok v) :
    dispatchBlock x store PublicKey b = (storeSet store PublicKey v, none) := by
  simp [dispatchBlock, PublicKey, PrivateKey, h]

theorem dispatch_public_err (x : X509) (store : Store) (b : Bytes) (e : String)
    (h : x.parsePKIXPublicKey b = .error e) :
    dispatchBlock x store PublicKey b =
      (storeSet store PublicKey (.bytes b), none) := by
  simp [dispatchBlock, PublicKey, PrivateKey, h]

theorem dispatch_rsa_ok (x : X509) (store : Store) (b : Bytes) (v : Val)
    (h : parsePKCSPrivateKey x b = .ok v) :
    dispatchBlock x store RSAPrivateKey b = (storeSet store RSAPrivateKey v, none) := by
  simp [dispatchBlock, RSAPrivateKey, PrivateKey, PublicKey, h]

theorem dispatch_rsa_err (x : X509) (store : Store) (b : Bytes) (e : String)
    (h : parsePKCSPrivateKey x b = .error e) :
    dispatchBlock x store RSAPrivateKey b = (store, some e) := by
  simp [dispatchBlock, RSAPrivateKey, PrivateKey, PublicKey, h]

theorem dispatch_ec_ok (x : X509) (store : Store) (b : Bytes) (k : Nat)
    (h : x.parseECPrivateKey b = .ok k) :
    dispatchBlock x store ECPrivateKey b =
      (storeSet store ECPrivateKey (.ecPriv k), none) := by
  simp [dispatchBlock, ECPrivateKey, PrivateKey, PublicKey, RSAPrivateKey, h]

theorem dispatch_ec_err (x : X509) (store : Store) (b : Bytes) (e : String)
    (h : x.parseECPrivateKey b = .error e) :
    dispatchBlock x store ECPrivateKey b = (store, some e) := by
  simp [dispatchBlock, ECPrivateKey, PrivateKey, PublicKey, RSAPrivateKey, h]

theorem dispatch_cert_ok (x : X509) (store : Store) (b : Bytes) (c : Nat)
    (h : x.parseCertificate b = .ok c) :
    dispatchBlock x store Certificate b =
      (storeSet store Certificate (.cert c), none) := by
  simp [dispatchBlock, Certificate, PrivateKey, PublicKey, RSAPrivateKey,
    ECPrivateKey, h]

theorem dispatch_cert_err (x : X509) (store : Store) (b : Bytes) (e : String)
    (h : x.parseCertificate b = .error e) :
    dispatchBlock x store Certificate b = (store, some e) := by
  simp [dispatchBlock, Certificate, PrivateKey, PublicKey, RSAPrivateKey,
    ECPrivateKey, h]

theorem dispatch_unknown (x : X509) (store : Store) (bt : BlockType) (b : Bytes)
    (h1 : bt ≠ PrivateKey) (h2 : bt ≠ PublicKey) (h3 : bt ≠ RSAPrivateKey)
    (h4 : bt ≠ ECPrivateKey) (h5 : bt ≠ Certificate) :
    dispatchBlock x store bt b =
      (store, some ("DecodePEM: encountered unknown block type " ++ bt)) := by
  simp [dispatchBlock, h1, h2, h3, h4, h5]

/-! ## Claims about the fallback decoder and the dispatcher -/

/-- Claim C2: `parsePKCSPrivateKey` attempts PKCS#1 first (success short-cuts
to the RSA key); only on PKCS#1 failure is PKCS#8 attempted, and its result is
returned as-is, so a double failure returns the PKCS#8 error and discards the
PKCS#1 error. -/
theorem c2_fallback_order (x : X509) (buf : Bytes) :
    (∀ k, x.parsePKCS1PrivateKey buf = .ok k →
      parsePKCSPrivateKey x buf = .ok (.rsaPriv k)) ∧
    (∀ e1, x.parsePKCS1PrivateKey buf = .error e1 →
      parsePKCSPrivateKey x buf = x.parsePKCS8PrivateKey buf) ∧
    (∀ e1 e2, x.parsePKCS1PrivateKey buf = .error e1 →
      x.parsePKCS8PrivateKey buf = .error e2 →
      parsePKCSPrivateKey x buf = .error e2) := by
  refine ⟨fun k h => ?_, fun e1 h => ?_, fun e1 e2 h1 h2 => ?_⟩
  · simp [parsePKCSPrivateKey, h]
  · simp [parsePKCSPrivateKey, h]
  · simp [parsePKCSPrivateKey, h1, h2]

theorem c2_fallback_order_witness :
    parsePKCSPrivateKey toyX509 [1, 7] = .ok (.rsaPriv 7) ∧
    parsePKCSPrivateKey toyX509 [8, 2, 5] = .ok (.ecPriv 5) ∧
    parsePKCSPrivateKey toyX509 [99] = .error "asn1: structure error in PKCS8 data" := by
  refine ⟨(c2_fallback_order toyX509 [1, 7]).1 7 rfl, ?_,
    (c2_fallback_order toyX509 [99]).2.2 "asn1: structure error in PKCS1 data"
      "asn1: structure error in PKCS8 data" rfl rfl⟩
  have h := (c2_fallback_order toyX509 [8, 2, 5]).2.1
    "asn1: structure error in PKCS1 data" rfl
  rw [h]
  rfl

/-- Claim C1: for a "PRIVATE KEY" block, if the PKCS#1-then-PKCS#8 fallback
succeeds, the decoded key is stored under `RSAPrivateKey` (whichever sub-format
matched); if both parses fail, the raw decoded bytes are stored unchanged under
`PrivateKey` and the block reports success (decoding continues, and for a
single-block input `DecodePEM` returns no error). -/
theorem c1_generic_private_key (x : X509) (store : Store) (b : Bytes)
    (rest : List Block) (g : Bool) :
    (∀ v, parsePKCSPrivateKey x b = .ok v →
      DecodePEM x store ⟨(PrivateKey, b) :: rest, g⟩ =
        DecodePEM x (storeSet store RSAPrivateKey v) ⟨rest, g⟩) ∧
    (∀ e, parsePKCSPrivateKey x b = .error e →
      DecodePEM x store ⟨(PrivateKey, b) :: rest, g⟩ =
        DecodePEM x (storeSet store PrivateKey (.bytes b)) ⟨rest, g⟩ ∧
      DecodePEM x store ⟨[(PrivateKey, b)], false⟩ =
        (storeSet store PrivateKey (.bytes b), none)) := by
  constructor
  · intro v h
    rw [DecodePEM_mk, DecodePEM_mk, decode_cons_ok x g store _ _ rest _
      (dispatch_private_ok x store b v h)]
  · intro e h
    constructor
    · rw [DecodePEM_mk, DecodePEM_mk, decode_cons_ok x g store _ _ rest _
        (dispatch_private_err x store b e h)]
    · rw [DecodePEM_mk, decode_cons_ok x false store _ _ [] _
        (dispatch_private_err x store b e h), decode_nil]

theorem c1_generic_private_key_witness :
    DecodePEM toyX509 [] ⟨[(PrivateKey, [1, 7])], false⟩ =
      ([(RSAPrivateKey, .rsaPriv 7)], none) ∧
    DecodePEM toyX509 [] ⟨[(PrivateKey, [8, 2, 5])], false⟩ =
      ([(RSAPrivateKey, .ecPriv 5)], none) ∧
    DecodePEM toyX509 [] ⟨[(PrivateKey, [99])], false⟩ =
      ([(PrivateKey, .bytes [99])], none) := by
  refine ⟨?_, ?_,
    ((c1_generic_private_key toyX509 [] [99] [] false).2
      "asn1: structure error in PKCS8 data" rfl).2⟩
  · rw [(c1_generic_private_key toyX509 [] [1, 7] [] false).1 (.rsaPriv 7) rfl]
    rfl
  · rw [(c1_generic_private_key toyX509 [] [8, 2, 5] [] false).1 (.ecPriv 5) rfl]
    rfl

/-- Claim C3: an "RSA PRIVATE KEY" block whose bytes fail both PKCS#1 and
PKCS#8 parsing makes `DecodePEM` return the parse error (the PKCS#8 one, per
the fallback) immediately, with the store returned exactly as it was passed in
and no raw-bytes fallback entry. -/
theorem c3_rsa_label_no_fallback (x : X509) (store : Store) (b : Bytes)
    (rest : List Block) (g : Bool) (e1 e2 : String)
    (h1 : x.parsePKCS1PrivateKey b = .error e1)
    (h2 : x.parsePKCS8PrivateKey b = .error e2) :
    DecodePEM x store ⟨(RSAPrivateKey, b) :: rest, g⟩ = (store, some e2) := by
  rw [DecodePEM_mk, decode_cons_err x g store _ _ rest store e2
    (dispatch_rsa_err x store b e2 (by simp [parsePKCSPrivateKey, h1, h2]))]

theorem c3_rsa_label_no_fallback_witness :
    DecodePEM toyX509 [(Certificate, Val.cert 4)] ⟨[(RSAPrivateKey, [99])], false⟩ =
      ([(Certificate, Val.cert 4)], some "asn1: structure error in PKCS8 data") :=
  c3_rsa_label_no_fallback toyX509 [(Certificate, Val.cert 4)] [99] [] false
    "asn1: structure error in PKCS1 data" "asn1: structure error in PKCS8 data" rfl rfl

/-- Claim C5: for a "PUBLIC KEY" block, a successful PKIX parse stores the
parsed key under `PublicKey`; a failed parse stores the raw decoded bytes
verbatim under `PublicKey`; in both cases decoding continues with no error
reported for the block. -/
theorem c5_public_key_degrade (x : X509) (store : Store) (b : Bytes)
    (rest : List Block) (g : Bool) :
    (∀ v, x.parsePKIXPublicKey b = .ok v →
      DecodePEM x store ⟨(PublicKey, b) :: rest, g⟩ =
        DecodePEM x (storeSet store PublicKey v) ⟨rest, g⟩) ∧
    (∀ e, x.parsePKIXPublicKey b = .error e →
      DecodePEM x store ⟨(PublicKey, b) :: rest, g⟩ =
        DecodePEM x (storeSet store PublicKey (.bytes b)) ⟨rest, g⟩ ∧
      DecodePEM x store ⟨[(PublicKey, b)], false⟩ =
        (storeSet store PublicKey (.bytes b), none)) := by
  constructor
  · intro v h
    rw [DecodePEM_mk, DecodePEM_mk, decode_cons_ok x g store _ _ rest _
      (dispatch_public_ok x store b v h)]
  · intro e h
    constructor
    · rw [DecodePEM_mk, DecodePEM_mk, decode_cons_ok x g store _ _ rest _
        (dispatch_public_err x store b e h)]
    · rw [DecodePEM_mk, decode_cons_ok x false store _ _ [] _
        (dispatch_public_err x store b e h), decode_nil]

theorem c5_public_key_degrade_witness :
    DecodePEM toyX509 [] ⟨[(PublicKey, [6, 1, 9])], false⟩ =
      ([(PublicKey, .rsaPub 9)], none) ∧
    DecodePEM toyX509 [] ⟨[(PublicKey, [42, 43])], false⟩ =
      ([(PublicKey, .bytes [42, 43])], none) := by
  refine ⟨?_,
    ((c5_public_key_degrade toyX509 [] [42, 43] [] false).2
      "asn1: structure error in PKIX data" rfl).2⟩
  rw [(c5_public_key_degrade toyX509 [] [6, 1, 9] [] false).1 (.rsaPub 9) rfl]
  rfl

/-- Claim C6: a block whose label is none of the five recognized ones makes
`DecodePEM` return the unknown-block-type error naming that label, with the
store unchanged (nothing stored for the block) and the remaining blocks left
unprocessed. -/
theorem c6_unknown_label_aborts (x : X509) (store : Store) (bt : BlockType)
    (b : Bytes) (rest : List Block) (g : Bool)
    (h1 : bt ≠ PrivateKey) (h2 : bt ≠ PublicKey) (h3 : bt ≠ RSAPrivateKey)
    (h4 : bt ≠ ECPrivateKey) (h5 : bt ≠ Certificate) :
    DecodePEM x store ⟨(bt, b) :: rest, g⟩ =
      (store, some ("DecodePEM: encountered unknown block type " ++ bt)) := by
  rw [DecodePEM_mk, decode_cons_err x g store _ _ rest store _
    (dispatch_unknown x store bt b h1 h2 h3 h4 h5)]

theorem c6_unknown_label_aborts_witness :
    DecodePEM toyX509 [] ⟨[("HEADERS", [0]), (PrivateKey, [1, 7])], false⟩ =
      ([], some "DecodePEM: encountered unknown block type HEADERS") :=
  c6_unknown_label_aborts toyX509 [] "HEADERS" [0] [(PrivateKey, [1, 7])] false
    (by decide) (by decide) (by decide) (by decide) (by decide)

/-! ## Claims about `PEM.Load` -/

theorem load_append_ok (x : X509) (env : Env) (p1 p2 : PEM) (store s1 : Store)
    (h : PEM.Load x env p1 store = (s1, none)) :
    PEM.Load x env (p1 ++ p2) store = PEM.Load x env p2 s1 := by
  induction p1 generalizing store with
  | nil =>
    simp only [PEM.Load, Prod.mk.injEq] at h
    rw [List.nil_append, h.1]
  | cons c rest ih =>
    rcases hl : loadOne x env store c with ⟨s, oe⟩
    cases oe with
    | none =>
      simp only [PEM.Load, hl] at h
      simp only [List.cons_append, PEM.Load, hl]
      exact ih s h
    | some e =>
      simp only [PEM.Load, hl, Prod.mk.injEq] at h
      exact absurd h.2 (by simp)

theorem dispatchBlock_fst_isSome (x : X509) (store : Store) (bt : BlockType)
    (b : Bytes) (k : BlockType) (h : (storeGet store k).isSome) :
    (storeGet (dispatchBlock x store bt b).1 k).isSome := by
  unfold dispatchBlock
  repeat' split
  all_goals
    first
      | exact storeGet_storeSet_isSome _ _ _ _ h
      | exact h

theorem decodeBlocks_fst_isSome (x : X509) (g : Bool) (blocks : List Block)
    (store : Store) (k : BlockType) (h : (storeGet store k).isSome) :
    (storeGet (decodeBlocks x g store blocks).1 k).isSome := by
  induction blocks generalizing store with
  | nil =>
    unfold decodeBlocks
    split <;> exact h
  | cons blk rest ih =>
    obtain ⟨bt, b⟩ := blk
    have hd := dispatchBlock_fst_isSome x store bt b k h
    rcases he : dispatchBlock x store bt b with ⟨s, oe⟩
    rw [he] at hd
    cases oe with
    | none =>
      rw [decode_cons_ok x g store bt b rest s he]
      exact ih s hd
    | some e =>
      rw [decode_cons_err x g store bt b rest s e he]
      exact hd

theorem loadOne_fst_isSome (x : X509) (env : Env) (store : Store) (src : Source)
    (k : BlockType) (h : (storeGet store k).isSome) :
    (storeGet (loadOne x env store src).1 k).isSome := by
  cases src with
  | str name =>
    simp only [loadOne]
    cases env.readFile name with
    | ok buf => exact decodeBlocks_fst_isSome x buf.trailing buf.blocks store k h
    | error e => exact h
  | reader r =>
    simp only [loadOne]
    cases env.readAll r with
    | ok buf => exact decodeBlocks_fst_isSome x buf.trailing buf.blocks store k h
    | error e => exact h
  | bytes buf => exact decodeBlocks_fst_isSome x buf.trailing buf.blocks store k h
  | unknown t => exact h

/-- Claim C7: if the first sources all load successfully (ending in store
`s1`) and the next source fails, `Load` on the whole sequence returns exactly
the failing source's error and its store: every block kind populated by the
successful prefix is still populated, nothing is rolled back, and later
sources are not processed. -/
theorem c7_partial_results (x : X509) (env : Env) (p1 : PEM) (src : Source)
    (rest : PEM) (store s1 s2 : Store) (e : String)
    (h1 : PEM.Load x env p1 store = (s1, none))
    (h2 : loadOne x env s1 src = (s2, some e)) :
    PEM.Load x env (p1 ++ src :: rest) store = (s2, some e) ∧
    ∀ k, (storeGet s1 k).isSome → (storeGet s2 k).isSome := by
  constructor
  · rw [load_append_ok x env p1 (src :: rest) store s1 h1]
    simp only [PEM.Load, h2]
  · intro k hk
    have h := loadOne_fst_isSome x env s1 src k hk
    rwa [h2] at h

/-- The I/O environment with no readable files or readers, used to evaluate
`Load` on in-memory sources. -/
def emptyEnv : Env where
  readFile _ := .error "open: no such file or directory"
  readAll _ := .error "read error"

theorem c7_partial_results_witness :
    PEM.Load toyX509 emptyEnv
        [.bytes ⟨[(PrivateKey, [1, 7])], false⟩,
         .bytes ⟨[(Certificate, [0])], false⟩] [] =
      ([(RSAPrivateKey, Val.rsaPriv 7)],
        some "asn1: structure error in certificate data") ∧
    (storeGet [(RSAPrivateKey, Val.rsaPriv 7)] RSAPrivateKey).isSome := by
  have h := c7_partial_results toyX509 emptyEnv
    [.bytes ⟨[(PrivateKey, [1, 7])], false⟩]
    (.bytes ⟨[(Certificate, [0])], false⟩) [] []
    [(RSAPrivateKey, Val.rsaPriv 7)] [(RSAPrivateKey, Val.rsaPriv 7)]
    "asn1: structure error in certificate data" rfl rfl
  exact ⟨h.1, h.2 RSAPrivateKey rfl⟩

/-- Claim C8 counterexample: an unrecognized source makes `Load` fail with an
error naming only the source's dynamic type.  The offending item sits at
position 0 in the first call and position 1 in the second, yet both calls
return the identical error string, so the error does not identify the
position index of the offending item. -/
theorem c8_counterexample :
    PEM.Load toyX509 emptyEnv [.unknown "int"] [] =
      ([], some "Load: unrecognized type int") ∧
    PEM.Load toyX509 emptyEnv
        [.bytes ⟨[(PrivateKey, [1, 7])], false⟩, .unknown "int"] [] =
      ([(RSAPrivateKey, Val.rsaPriv 7)], some "Load: unrecognized type int") :=
  ⟨rfl, rfl⟩

/-- Claim C8 amended: for every item of unrecognized dynamic type, `Load`
fails at that item with an error identifying the item's type name (not its
position index), keeping the store accumulated so far. -/
theorem c8_amended (x : X509) (env : Env) (p1 : PEM) (t : String) (rest : PEM)
    (store s1 : Store) (h : PEM.Load x env p1 store = (s1, none)) :
    PEM.Load x env (p1 ++ .unknown t :: rest) store =
      (s1, some ("Load: unrecognized type " ++ t)) := by
  rw [load_append_ok x env p1 (.unknown t :: rest) store s1 h]
  rfl

theorem c8_amended_witness :
    PEM.Load toyX509 emptyEnv
        [.bytes ⟨[(PrivateKey, [1, 7])], false⟩, .unknown "int"] [] =
      ([(RSAPrivateKey, Val.rsaPriv 7)], some ("Load: unrecognized type " ++ "int")) :=
  c8_amended toyX509 emptyEnv [.bytes ⟨[(PrivateKey, [1, 7])], false⟩] "int" []
    [] [(RSAPrivateKey, Val.rsaPriv 7)] rfl

/-! ## Claims about `GeneratePublicKeys` -/

theorem genECPublicKey_snd_none (x : X509) (s : Store)
    (h : ∀ v, storeGet s ECPrivateKey = some v → ∃ k, v = Val.ecPriv k) :
    (genECPublicKey x s).2 = none := by
  unfold genECPublicKey
  rcases he : storeGet s ECPrivateKey with _ | v
  · rfl
  · obtain ⟨k, rfl⟩ := h v he
    rfl

/-- Claim C9 counterexample: a single successful `DecodePEM` call on an empty
store can store a non-RSA key under `RSAPrivateKey` (a "PRIVATE KEY" block
whose PKCS#8 parse yields an EC key), after which `GeneratePublicKeys` takes
its RSA type-consistency error branch — so that branch is reachable for stores
populated only by successful decode calls. -/
theorem c9_counterexample :
    DecodePEM toyX509 [] ⟨[(PrivateKey, [8, 2, 5])], false⟩ =
      ([(RSAPrivateKey, Val.ecPriv 5)], none) ∧
    GeneratePublicKeys toyX509 [(RSAPrivateKey, Val.ecPriv 5)] =
      ([(RSAPrivateKey, Val.ecPriv 5)],
        some "GeneratePublicKeys: expected RSAPrivateKey to be *rsa.PrivateKey") :=
  ⟨rfl, rfl⟩

/-- Claim C9 amended: `GeneratePublicKeys` succeeds on every store whose
`RSAPrivateKey` entry, if present, is an actual RSA private key and whose
`ECPrivateKey` entry, if present, is an actual EC private key.  Stores
populated only by successful `DecodePEM`/`Load` calls satisfy this whenever no
"PRIVATE KEY"/"RSA PRIVATE KEY" block was decoded through the PKCS#8 fallback
into a non-RSA key; without that proviso the type-consistency branches are
reachable. -/
theorem c9_amended (x : X509) (s : Store)
    (h1 : ∀ v, storeGet s RSAPrivateKey = some v → ∃ k, v = Val.rsaPriv k)
    (h2 : ∀ v, storeGet s ECPrivateKey = some v → ∃ k, v = Val.ecPriv k) :
    (GeneratePublicKeys x s).2 = none := by
  unfold GeneratePublicKeys
  rcases hr : storeGet s RSAPrivateKey with _ | v
  · exact genECPublicKey_snd_none x s h2
  · obtain ⟨k, rfl⟩ := h1 v hr
    refine genECPublicKey_snd_none x _ fun v' hv' => h2 v' ?_
    rwa [storeGet_storeSet_other s ECPrivateKey PublicKey _ (by decide)] at hv'

theorem c9_amended_witness :
    (GeneratePublicKeys toyX509 [(RSAPrivateKey, Val.rsaPriv 3)]).2 = none :=
  c9_amended toyX509 [(RSAPrivateKey, Val.rsaPriv 3)]
    (fun v hv => ⟨3, by simpa [storeGet] using hv.symm⟩)
    (fun v hv => by simp [storeGet, RSAPrivateKey, ECPrivateKey] at hv)

/-- Claim C10: on a store holding an RSA private key under `RSAPrivateKey` and
an EC private key under `ECPrivateKey`, `GeneratePublicKeys` first stores the
RSA public key under `PublicKey` (the `genECPublicKey` phase then runs on that
intermediate store, whose `PublicKey` entry is the RSA public key) and then
overwrites it with the EC public key; the call succeeds, the final `PublicKey`
entry is the ECDSA public key, and every other entry is unchanged. -/
theorem c10_ec_overwrites_rsa (x : X509) (s : Store) (rk ek : Nat)
    (hr : storeGet s RSAPrivateKey = some (Val.rsaPriv rk))
    (he : storeGet s ECPrivateKey = some (Val.ecPriv ek)) :
    GeneratePublicKeys x s =
      genECPublicKey x (storeSet s PublicKey (.rsaPub (x.rsaPublic rk))) ∧
    storeGet (storeSet s PublicKey (.rsaPub (x.rsaPublic rk))) PublicKey =
      some (.rsaPub (x.rsaPublic rk)) ∧
    GeneratePublicKeys x s =
      (storeSet (storeSet s PublicKey (.rsaPub (x.rsaPublic rk))) PublicKey
        (.ecPub (x.ecdsaPublic ek)), none) ∧
    storeGet (GeneratePublicKeys x s).1 PublicKey =
      some (.ecPub (x.ecdsaPublic ek)) ∧
    ∀ k, k ≠ PublicKey → storeGet (GeneratePublicKeys x s).1 k = storeGet s k := by
  have hstep : GeneratePublicKeys x s =
      genECPublicKey x (storeSet s PublicKey (.rsaPub (x.rsaPublic rk))) := by
    unfold GeneratePublicKeys
    rw [hr]
  have hee : storeGet (storeSet s PublicKey (.rsaPub (x.rsaPublic rk)))
      ECPrivateKey = some (Val.ecPriv ek) := by
    rwa [storeGet_storeSet_other s ECPrivateKey PublicKey _ (by decide)]
  have hfin : GeneratePublicKeys x s =
      (storeSet (storeSet s PublicKey (.rsaPub (x.rsaPublic rk))) PublicKey
        (.ecPub (x.ecdsaPublic ek)), none) := by
    rw [hstep]
    unfold genECPublicKey
    rw [hee]
  refine ⟨hstep, storeGet_storeSet_same _ _ _, hfin, ?_, fun k hk => ?_⟩
  · rw [hfin]
    exact storeGet_storeSet_same _ _ _
  · rw [hfin]
    have hk' : PublicKey ≠ k := fun hh => hk hh.symm
    rw [storeGet_storeSet_other _ k PublicKey _ hk',
      storeGet_storeSet_other _ k PublicKey _ hk']

theorem c10_ec_overwrites_rsa_witness :
    GeneratePublicKeys toyX509
        [(RSAPrivateKey, Val.rsaPriv 1), (ECPrivateKey, Val.ecPriv 2)] =
      ([(RSAPrivateKey, Val.rsaPriv 1), (ECPrivateKey, Val.ecPriv 2),
        (PublicKey, Val.ecPub 2)], none) ∧
    storeGet (GeneratePublicKeys toyX509
        [(RSAPrivateKey, Val.rsaPriv 1), (ECPrivateKey, Val.ecPriv 2)]).1
      RSAPrivateKey = some (Val.rsaPriv 1) := by
  have h := c10_ec_overwrites_rsa toyX509
    [(RSAPrivateKey, Val.rsaPriv 1), (ECPrivateKey, Val.ecPriv 2)] 1 2 rfl
    (by decide)
  exact ⟨h.2.2.1, h.2.2.2.2 RSAPrivateKey (by decide)⟩

/-! ## Claims about the encode path and the typed round-trip -/

/-- Claim C4 counterexample: a valid single-block "CERTIFICATE" input decodes
successfully, but re-encoding the resulting store fails: `EncodePrimitive` has
no mapping for a parsed certificate, so `Store.Bytes` returns the
unsupported-primitive error and the decode-encode-decode round trip does not
succeed for the CERTIFICATE label. -/
theorem c4_counterexample :
    DecodePEM toyX509 [] ⟨[(Certificate, [9, 4])], false⟩ =
      ([(Certificate, Val.cert 4)], none) ∧
    Store.Bytes toyX509 [(Certificate, Val.cert 4)] =
      .error "EncodePrimitive: unsupported crypto primitive" :=
  ⟨rfl, rfl⟩

/-- Claim C4 amended: the typed round-trip holds for the labels
"RSA PRIVATE KEY", "EC PRIVATE KEY" and "PUBLIC KEY" (not "CERTIFICATE"):
whenever the block decodes to the corresponding typed primitive (for
"PUBLIC KEY": to an RSA or ECDSA public key) and the external library can
marshal that primitive and re-parse its own output, decoding a fresh store,
re-encoding it with `Store.Bytes`, and decoding the result into a second
fresh store succeeds and populates the same block kind. -/
theorem c4_amended (x : X509) :
    (∀ b k v, parsePKCSPrivateKey x b = .ok (.rsaPriv k) →
      parsePKCSPrivateKey x (x.marshalPKCS1PrivateKey k) = .ok v →
      ∃ s1 blks s2,
        DecodePEM x [] ⟨[(RSAPrivateKey, b)], false⟩ = (s1, none) ∧
        Store.Bytes x s1 = .ok blks ∧
        DecodePEM x [] ⟨blks, false⟩ = (s2, none) ∧
        (storeGet s2 RSAPrivateKey).isSome) ∧
    (∀ b k b2 k2, x.parseECPrivateKey b = .ok k →
      x.marshalECPrivateKey k = .ok b2 →
      x.parseECPrivateKey b2 = .ok k2 →
      ∃ s1 blks s2,
        DecodePEM x [] ⟨[(ECPrivateKey, b)], false⟩ = (s1, none) ∧
        Store.Bytes x s1 = .ok blks ∧
        DecodePEM x [] ⟨blks, false⟩ = (s2, none) ∧
        (storeGet s2 ECPrivateKey).isSome) ∧
    (∀ b u b2, x.parsePKIXPublicKey b = .ok (.rsaPub u) →
      x.marshalPKIXPublicKey (.rsaPub u) = .ok b2 →
      ∃ s1 blks s2,
        DecodePEM x [] ⟨[(PublicKey, b)], false⟩ = (s1, none) ∧
        Store.Bytes x s1 = .ok blks ∧
        DecodePEM x [] ⟨blks, false⟩ = (s2, none) ∧
        (storeGet s2 PublicKey).isSome) ∧
    (∀ b u b2, x.parsePKIXPublicKey b = .ok (.ecPub u) →
      x.marshalPKIXPublicKey (.ecPub u) = .ok b2 →
      ∃ s1 blks s2,
        DecodePEM x [] ⟨[(PublicKey, b)], false⟩ = (s1, none) ∧
        Store.Bytes x s1 = .ok blks ∧
        DecodePEM x [] ⟨blks, false⟩ = (s2, none) ∧
        (storeGet s2 PublicKey).isSome) := by
  refine ⟨fun b k v hp hq => ?_, fun b k b2 k2 hp hm hq => ?_,
    fun b u b2 hp hm => ?_, fun b u b2 hp hm => ?_⟩
  · refine ⟨[(RSAPrivateKey, .rsaPriv k)],
      [(RSAPrivateKey, x.marshalPKCS1PrivateKey k)], [(RSAPrivateKey, v)],
      ?_, rfl, ?_, by simp [storeGet]⟩
    · rw [DecodePEM_mk, decode_cons_ok x false [] _ _ [] _
        (dispatch_rsa_ok x [] b (.rsaPriv k) hp), decode_nil]
      rfl
    · rw [DecodePEM_mk, decode_cons_ok x false [] _ _ [] _
        (dispatch_rsa_ok x [] _ v hq), decode_nil]
      rfl
  · refine ⟨[(ECPrivateKey, .ecPriv k)], [(ECPrivateKey, b2)],
      [(ECPrivateKey, .ecPriv k2)], ?_, ?_, ?_, by simp [storeGet]⟩
    · rw [DecodePEM_mk, decode_cons_ok x false [] _ _ [] _
        (dispatch_ec_ok x [] b k hp), decode_nil]
      rfl
    · simp [Store.Bytes, EncodePrimitive, hm]
    · rw [DecodePEM_mk, decode_cons_ok x false [] _ _ [] _
        (dispatch_ec_ok x [] b2 k2 hq), decode_nil]
      rfl
  · cases hpp : x.parsePKIXPublicKey b2 with
    | ok w =>
      refine ⟨[(PublicKey, .rsaPub u)], [(PublicKey, b2)], [(PublicKey, w)],
        ?_, ?_, ?_, by simp [storeGet]⟩
      · rw [DecodePEM_mk, decode_cons_ok x false [] _ _ [] _
          (dispatch_public_ok x [] b (.rsaPub u) hp), decode_nil]
        rfl
      · simp [Store.Bytes, EncodePrimitive, hm]
      · rw [DecodePEM_mk, decode_cons_ok x false [] _ _ [] _
          (dispatch_public_ok x [] b2 w hpp), decode_nil]
        rfl
    | error e =>
      refine ⟨[(PublicKey, .rsaPub u)], [(PublicKey, b2)],
        [(PublicKey, .bytes b2)], ?_, ?_, ?_, by simp [storeGet]⟩
      · rw [DecodePEM_mk, decode_cons_ok x false [] _ _ [] _
          (dispatch_public_ok x [] b (.rsaPub u) hp), decode_nil]
        rfl
      · simp [Store.Bytes, EncodePrimitive, hm]
      · rw [DecodePEM_mk, decode_cons_ok x false [] _ _ [] _
          (dispatch_public_err x [] b2 e hpp), decode_nil]
        rfl
  · cases hpp : x.parsePKIXPublicKey b2 with
    | ok w =>
      refine ⟨[(PublicKey, .ecPub u)], [(PublicKey, b2)], [(PublicKey, w)],
        ?_, ?_, ?_, by simp [storeGet]⟩
      · rw [DecodePEM_mk, decode_cons_ok x false [] _ _ [] _
          (dispatch_public_ok x [] b (.ecPub u) hp), decode_nil]
        rfl
      · simp [Store.Bytes, EncodePrimitive, hm]
      · rw [DecodePEM_mk, decode_cons_ok x false [] _ _ [] _
          (dispatch_public_ok x [] b2 w hpp), decode_nil]
        rfl
    | error e =>
      refine ⟨[(PublicKey, .ecPub u)], [(PublicKey, b2)],
        [(PublicKey, .bytes b2)], ?_, ?_, ?_, by simp [storeGet]⟩
      · rw [DecodePEM_mk, decode_cons_ok x false [] _ _ [] _
          (dispatch_public_ok x [] b (.ecPub u) hp), decode_nil]
        rfl
      · simp [Store.Bytes, EncodePrimitive, hm]
      · rw [DecodePEM_mk, decode_cons_ok x false [] _ _ [] _
          (dispatch_public_err x [] b2 e hpp), decode_nil]
        rfl

theorem c4_amended_witness :
    (∃ s1 blks s2,
      DecodePEM toyX509 [] ⟨[(RSAPrivateKey, [1, 7])], false⟩ = (s1, none) ∧
      Store.Bytes toyX509 s1 = .ok blks ∧
      DecodePEM toyX509 [] ⟨blks, false⟩ = (s2, none) ∧
      (storeGet s2 RSAPrivateKey).isSome) ∧
    (∃ s1 blks s2,
      DecodePEM toyX509 [] ⟨[(ECPrivateKey, [2, 4])], false⟩ = (s1, none) ∧
      Store.Bytes toyX509 s1 = .ok blks ∧
      DecodePEM toyX509 [] ⟨blks, false⟩ = (s2, none) ∧
      (storeGet s2 ECPrivateKey).isSome) ∧
    (∃ s1 blks s2,
      DecodePEM toyX509 [] ⟨[(PublicKey, [6, 1, 9])], false⟩ = (s1, none) ∧
      Store.Bytes toyX509 s1 = .ok blks ∧
      DecodePEM toyX509 [] ⟨blks, false⟩ = (s2, none) ∧
      (storeGet s2 PublicKey).isSome) ∧
    (∃ s1 blks s2,
      DecodePEM toyX509 [] ⟨[(PublicKey, [6, 2, 9])], false⟩ = (s1, none) ∧
      Store.Bytes toyX509 s1 = .ok blks ∧
      DecodePEM toyX509 [] ⟨blks, false⟩ = (s2, none) ∧
      (storeGet s2 PublicKey).isSome) := by
  have h := c4_amended toyX509
  exact ⟨h.1 [1, 7] 7 (.rsaPriv 7) rfl rfl,
    h.2.1 [2, 4] 4 [2, 4] 4 rfl rfl rfl,
    h.2.2.1 [6, 1, 9] 9 [6, 1, 9] rfl rfl,
    h.2.2.2 [6, 2, 9] 9 [6, 2, 9] rfl rfl⟩
